/-
Verification of the maubot-shame plugin core (shameotron.py).

The probing/aggregation pipeline of `ShameOTron` is shallowly embedded:
  * `get_ssl_expiry`     — the certificate prober (addr parsing + TLS connect),
  * `query_homeserver`   — the version prober (HTTP GET, JSON fields, cert step),
  * `resolveHosts`       — the host-resolver branch of `shame_handler`,
  * `probeLoop`/`renderReport`/`shame_pipeline` — the per-host loop and report.
Network, TLS and the wall clock are passed in as explicit parameters
(`HostEnv`, `ConnectFn`, `now`); Python exceptions become the `PyExc` error
type of an `Except` monad, and Python datetimes become integer timestamps in
seconds (so `timedelta.days` is flooring division by 86400).
-/
import Mathlib

namespace Shameotron

/-- Python exceptions that the plugin code can raise or catch. -/
inductive PyExc where
  | unboundLocalError
  | jsonDecodeError
  | keyError (key : String)
  | typeError
  | attributeError
  | indexError
  | valueError
  | connectionRefused
  | socketTimeout
  | sslError
  | sslCertVerificationError
deriving DecidableEq, Repr

/-- A parsed JSON value (Python object as returned by `json.loads`);
`null` also stands for Python `None`. -/
inductive Json where
  | null
  | bool (b : Bool)
  | num (n : Int)
  | str (s : String)
  | arr (elems : List Json)
  | obj (fields : List (String × Json))

/-- Python truthiness of a JSON value (`if x:` / `if not x:`). -/
def Json.truthy : Json → Bool
  | .null => false
  | .bool b => b
  | .num n => n != 0
  | .str s => !s.isEmpty
  | .arr xs => !xs.isEmpty
  | .obj fs => !fs.isEmpty

/-- First binding for a key in a field list (Python dict lookup;
dict keys are unique, insertion-ordered). -/
def lookupField : List (String × Json) → String → Option Json
  | [], _ => none
  | (k, v) :: rest, key => if k = key then some v else lookupField rest key

/-- Python subscript `j[key]` with a string key: `KeyError` on a dict missing
the key, `TypeError` on any non-dict value. -/
def jsonGet (j : Json) (key : String) : Except PyExc Json :=
  match j with
  | .obj fields =>
    match lookupField fields key with
    | some v => .ok v
    | none => .error (.keyError key)
  | _ => .error .typeError

/-- A single-quote character, for Python `repr` of strings. -/
def sq : String := String.singleton (Char.ofNat 39)

mutual

/-- Python `repr` of a JSON value (string escaping not modelled). -/
def pyRepr : Json → String
  | .null => "None"
  | .bool true => "True"
  | .bool false => "False"
  | .num n => toString n
  | .str s => sq ++ s ++ sq
  | .arr xs => "[" ++ pyReprElems xs ++ "]"
  | .obj fs => "\x7b" ++ pyReprFields fs ++ "\x7d"

/-- Comma-separated `repr`s of list elements. -/
def pyReprElems : List Json → String
  | [] => ""
  | [x] => pyRepr x
  | x :: rest => pyRepr x ++ ", " ++ pyReprElems rest

/-- Comma-separated `repr`s of dict items. -/
def pyReprFields : List (String × Json) → String
  | [] => ""
  | [(k, v)] => sq ++ k ++ sq ++ ": " ++ pyRepr v
  | (k, v) :: rest => sq ++ k ++ sq ++ ": " ++ pyRepr v ++ ", " ++ pyReprFields rest

end

/-- Python `str` of a JSON value, as used by an f-string (`f"{x}"`). -/
def Json.pyStr (j : Json) : String :=
  match j with
  | .str s => s
  | other => pyRepr other

/-- Python `s.split(':')` on the character list: split at every colon,
keeping empty pieces (`"::1".split(':') == ['', '', '1']`). -/
def splitColon : List Char → List (List Char)
  | [] => [[]]
  | c :: rest =>
    if c = ':' then [] :: splitColon rest
    else
      match splitColon rest with
      | [] => [[c]]
      | p :: ps => (c :: p) :: ps

/-- Python `addr.split(':')`. -/
def pySplitColon (s : String) : List String :=
  (splitColon s.data).map String.mk

/-- Decimal value of a digit run (`None` on a non-digit). -/
def digitsValAux : List Char → Nat → Option Nat
  | [], acc => some acc
  | c :: rest, acc =>
    if c.isDigit then digitsValAux rest (acc * 10 + (c.toNat - 48)) else none

/-- Decimal value of a non-empty digit run. -/
def digitsVal : List Char → Option Nat
  | [] => none
  | cs => digitsValAux cs 0

/-- Leading-whitespace stripping, for `int()`'s operand. -/
def dropLeadingWs : List Char → List Char
  | [] => []
  | c :: rest =>
    if c = ' ' ∨ c = '\t' ∨ c = '\n' ∨ c = '\r' then dropLeadingWs rest
    else c :: rest

/-- Whitespace stripping on both ends. -/
def trimChars (cs : List Char) : List Char :=
  dropLeadingWs ((dropLeadingWs cs.reverse).reverse)

/-- Signed decimal digits. -/
def pyIntChars : List Char → Option Int
  | '-' :: cs => (digitsVal cs).map (fun n => -(n : Int))
  | '+' :: cs => (digitsVal cs).map (fun n => (n : Int))
  | cs => (digitsVal cs).map (fun n => (n : Int))

/-- Python `int(s)`: optional surrounding whitespace and sign, then decimal
digits (digit-group underscores not modelled). -/
def pyInt? (s : String) : Option Int := pyIntChars (trimChars s.data)

/-- Outcome of the blocking TLS connect/handshake/getpeercert sequence in
`get_ssl_expiry`, for a given (hostname, port, server_hostname) triple:
either the certificate's `notAfter` timestamp (already `strptime`-parsed,
in seconds), or the exception the socket/TLS layer raised. -/
inductive ConnectOutcome where
  | ok (notAfter : Int)
  | refused
  | timedOut
  | sslCertVerify
  | sslErr
deriving DecidableEq, Repr

/-- The TLS side of the outside world: what connecting to `hostname:port`
with SNI/verification name `server_hostname` does. -/
def ConnectFn : Type := String → Int → String → ConnectOutcome

/-- Exception/result view of one TLS connection attempt. -/
def connectExc : ConnectOutcome → Except PyExc Int
  | .ok t => .ok t
  | .refused => .error .connectionRefused
  | .timedOut => .error .socketTimeout
  | .sslCertVerify => .error .sslCertVerificationError
  | .sslErr => .error .sslError

/-- `ShameOTron.get_ssl_expiry(addr, host)`:
`(hostname, port) = addr.split(':')` raises `ValueError` unless the split
has exactly two parts, `int(port)` raises `ValueError` on a non-integer,
then the TLS connection to `(hostname, int(port))` with
`server_hostname=host` either yields the peer certificate's `notAfter`
expiry or raises. -/
def get_ssl_expiry (connect : ConnectFn) (addr host : String) : Except PyExc Int :=
  match pySplitColon addr with
  | [hostname, port] =>
    match pyInt? port with
    | some p => connectExc (connect hostname p host)
    | none => .error .valueError
  | _ => .error .valueError

/-- Result of the one `requests.get` against the federation tester:
the request timed out, the body failed `json.loads`, or the parsed body. -/
inductive HttpResult where
  | timeout
  | malformed
  | body (data : Json)

/-- The outside world as seen while probing one host. -/
structure HostEnv where
  http : HttpResult
  connect : ConnectFn

/-- `version`+`ssl_expiry` dict returned by `query_homeserver`. -/
structure QueryData where
  version : Json
  ssl_expiry : Option Int

/-- Exceptions the `except (ssl.SSLCertVerificationError, ssl.SSLError,
IndexError)` clause around the certificate step catches. -/
def sslCaught : PyExc → Bool
  | .sslCertVerificationError => true
  | .sslError => true
  | .indexError => true
  | _ => false

/-- Exceptions the `except (TypeError, KeyError)` clause around
`data['Version']['version']` catches. -/
def verCaught : PyExc → Bool
  | .typeError => true
  | .keyError _ => true
  | _ => false

/-- `addr = list(data['ConnectionReports'].keys())[0]`: `KeyError` if the
field is missing, `AttributeError` (`.keys()`) if it is not a dict,
`IndexError` if the dict is empty, else its first key. -/
def connReportAddr (data : Json) : Except PyExc String := do
  let cr ← jsonGet data "ConnectionReports"
  match cr with
  | .obj [] => .error .indexError
  | .obj ((k, _) :: _) => .ok k
  | _ => .error .attributeError

/-- The certificate try/except block of `query_homeserver`: fetch the first
connection-report address and probe it, converting a caught
SSL/IndexError exception to `ssl_expiry = None`. -/
def certProbeStep (env : HostEnv) (data : Json) (host : String) :
    Except PyExc (Option Int) :=
  match (do
      let addr ← connReportAddr data
      get_ssl_expiry env.connect addr host : Except PyExc Int) with
  | .ok expiry => .ok (some expiry)
  | .error ex => if sslCaught ex then .ok none else .error ex

/-- The version try/except block of `query_homeserver`: if `version` is
still falsy, set it to `data['Version']['version']`, converting a caught
TypeError/KeyError to `'[ERROR]'`. -/
def versionStep (data : Json) (version : Json) : Except PyExc Json :=
  if version.truthy then .ok version
  else
    match (do
        let v ← jsonGet data "Version"
        jsonGet v "version" : Except PyExc Json) with
    | .ok v => .ok v
    | .error ex => if verCaught ex then .ok (.str "[ERROR]") else .error ex

/-- `ShameOTron.query_homeserver(host)`.
On `requests.exceptions.Timeout` the handler sets `version = '[TIMEOUT]'`
but `req` is never assigned, so the following `json.loads(req.text)`
raises `UnboundLocalError`; a body that fails to parse raises
`json.JSONDecodeError`; `data['FederationOK']` is accessed outside any
try. Then `version` is `'[OFFLINE]'` when `FederationOK` is falsy, the
certificate step runs, and the version field is extracted. -/
def query_homeserver (env : HostEnv) (host : String) : Except PyExc QueryData :=
  match env.http with
  | .timeout => .error .unboundLocalError
  | .malformed => .error .jsonDecodeError
  | .body data => do
    let fedOK ← jsonGet data "FederationOK"
    let version0 : Json := if !fedOK.truthy then .str "[OFFLINE]" else .null
    let ssl_expiry ← certProbeStep env data host
    let version ← versionStep data version0
    .ok ⟨version, ssl_expiry⟩

/-- The warning computed per host in `shame_handler`. Timestamps are in
seconds; `(ssl_expiry - now).days` is Python `timedelta.days`, i.e.
flooring division of the difference by 86400. A `datetime` is always
truthy, so `if data['ssl_expiry']:` tests only for `None`. -/
def warningFor (ssl_expiry : Option Int) (now : Int) : String :=
  match ssl_expiry with
  | some expiry =>
    let expiry_days := Int.fdiv (expiry - now) 86400
    if expiry_days < 30 then
      "(cert expiry in " ++ toString expiry_days ++ " days!)"
    else ""
  | none => "(SSL error)"

/-- The `for host in member_servers:` loop of `shame_handler`: probe each
host in order, appending `(host, f"{data['version']} {warning}")`; an
exception raised while probing a host aborts the loop (there is no
try/except around `query_homeserver`), leaving later hosts unprocessed.
`now` models the `datetime.now()` readings of the run (taken once per
host in the source; modelled as a single per-run reading, since nothing
compares readings within one run). -/
def probeLoop (env : String → HostEnv) (now : Int) :
    List String → Except PyExc (List (String × String))
  | [] => .ok []
  | host :: rest => do
    let data ← query_homeserver (env host) host
    let warning := warningFor data.ssl_expiry now
    let tail ← probeLoop env now rest
    .ok ((host, data.version.pyStr ++ " " ++ warning) :: tail)

/-- One report line: `f'* {host}: [{version}]({url})'` where `url` is the
federation-tester template applied to the host. -/
def bullet (tmpl : String → String) (hv : String × String) : String :=
  "* " ++ hv.1 ++ ": [" ++ hv.2 ++ "](" ++ tmpl hv.1 ++ ")"

/-- The final message body: heading plus newline-joined bullets. -/
def renderReport (tmpl : String → String) (versions : List (String × String)) :
    String :=
  "#### Homeserver versions\n" ++
    String.intercalate "\n" (versions.map (bullet tmpl))

/-- Python `<=` on strings, lexicographic on code points, as a Bool on the
underlying character lists. -/
def listLe : List Char → List Char → Bool
  | [], _ => true
  | _ :: _, [] => false
  | a :: as, b :: bs => if a = b then listLe as bs else decide (a < b)

/-- Python `a <= b` for strings. -/
def strLe (a b : String) : Bool := listLe a.data b.data

/-- `strLe` as a decidable relation, the comparison `sorted()` sorts by. -/
def pyStrLe (a b : String) : Prop := strLe a b = true

instance : DecidableRel pyStrLe :=
  fun a b => inferInstanceAs (Decidable (strLe a b = true))

/-- The membership branch of `shame_handler`: if `dead_servers` is truthy
(non-empty), `sorted(list(set(member_servers.keys() - set(dead_servers))))`;
otherwise the member mapping is left as-is and iterated in key
(insertion) order. `memberHosts` is the dict's key list; `sorted()` is a
stable ascending sort and, `pyStrLe` being total and antisymmetric, agrees
with insertion sort. -/
def resolveHosts (memberHosts : List String) (dead_servers : List String) :
    List String :=
  if dead_servers.isEmpty then memberHosts
  else
    List.insertionSort pyStrLe
      ((memberHosts.filter (fun h => !dead_servers.contains h)).dedup)

/-- The host list `shame_handler` probes: `[candidate]` when the candidate
argument is truthy (a non-empty string), else the resolved members. -/
def memberServers (candidate : Option String) (memberHosts : List String)
    (dead_servers : List String) : List String :=
  match candidate with
  | some c => if c.isEmpty then resolveHosts memberHosts dead_servers else [c]
  | none => resolveHosts memberHosts dead_servers

/-- The probing/report core of `shame_handler` (chat-framework adapters
stripped): resolve hosts, probe them in order, render the report. -/
def shame_pipeline (tmpl : String → String) (dead_servers : List String)
    (candidate : Option String) (memberHosts : List String)
    (env : String → HostEnv) (now : Int) : Except PyExc String := do
  let versions ← probeLoop env now (memberServers candidate memberHosts dead_servers)
  .ok (renderReport tmpl versions)

/-! ### Concrete fixtures (used by witnesses and counterexamples) -/

/-- A `federation_tester` URL template already applied via `.format`. -/
def tmpl0 : String → String := fun host => "https://fed.example/api?server=" ++ host

/-- A healthy federation-tester response body. -/
def goodData : Json :=
  .obj [("FederationOK", .bool true),
        ("Version", .obj [("version", .str "1.90.0")]),
        ("ConnectionReports", .obj [("1.2.3.4:8448", .obj [])])]

/-- TLS stub: every handshake yields a certificate expiring at 3456000 s
(40 days) past the epoch. -/
def connOk : ConnectFn := fun _ _ _ => .ok 3456000

/-- Every host healthy. -/
def envOk : String → HostEnv := fun _ => ⟨.body goodData, connOk⟩

/-- Healthy version data but the TLS connection is refused. -/
def envRefused : HostEnv := ⟨.body goodData, fun _ _ _ => .refused⟩

/-- The federation-tester body fails to parse. -/
def envMalformed : HostEnv := ⟨.malformed, connOk⟩

/-- `a.org` gets a malformed body; every other host is healthy. -/
def envFirstBad : String → HostEnv := fun h =>
  if h = "a.org" then envMalformed else ⟨.body goodData, connOk⟩

/-- A second, pointwise-equal copy of `envOk`. -/
def envOkB : String → HostEnv := fun _ =>
  ⟨.body goodData, fun _ _ _ => .ok 3456000⟩

/-! ### Theorems -/

theorem except_bind_ok {α β : Type} (a : α) (f : α → Except PyExc β) :
    (Except.ok a : Except PyExc α).bind f = f a := rfl

theorem except_bind_error {α β : Type} (e : PyExc) (f : α → Except PyExc β) :
    (Except.error e : Except PyExc α).bind f = .error e := rfl

theorem except_bindM_ok {α β : Type} (a : α) (f : α → Except PyExc β) :
    (Except.ok a : Except PyExc α) >>= f = f a := rfl

theorem except_bindM_error {α β : Type} (e : PyExc) (f : α → Except PyExc β) :
    (Except.error e : Except PyExc α) >>= f = .error e := rfl

theorem jsonGet_error (j : Json) (k : String) (ex : PyExc)
    (h : jsonGet j k = .error ex) : ex = .keyError k ∨ ex = .typeError := by
  cases j
  case obj fields =>
    simp only [jsonGet] at h
    cases hl : lookupField fields k with
    | some v => rw [hl] at h; exact Except.noConfusion h
    | none => rw [hl] at h; injection h with h; exact Or.inl h.symm
  all_goals (simp only [jsonGet] at h; injection h with h; exact Or.inr h.symm)

theorem verChain_caught (data : Json) (ex : PyExc)
    (hv : (do
        let v ← jsonGet data "Version"
        jsonGet v "version" : Except PyExc Json) = .error ex) :
    verCaught ex = true := by
  rcases h1 : jsonGet data "Version" with e | x
  · rw [show (do
        let v ← jsonGet data "Version"
        jsonGet v "version" : Except PyExc Json) =
          (jsonGet data "Version").bind (fun v => jsonGet v "version") from rfl,
      h1, except_bind_error] at hv
    injection hv with hv
    subst hv
    rcases jsonGet_error _ _ _ h1 with h | h <;> (subst h; rfl)
  · rw [show (do
        let v ← jsonGet data "Version"
        jsonGet v "version" : Except PyExc Json) =
          (jsonGet data "Version").bind (fun v => jsonGet v "version") from rfl,
      h1, except_bind_ok] at hv
    rcases jsonGet_error _ _ _ hv with h | h <;> (subst h; rfl)

theorem query_homeserver_body (env : HostEnv) (data : Json) (host : String)
    (h : env.http = .body data) :
    query_homeserver env host =
      (jsonGet data "FederationOK").bind (fun fedOK =>
        (certProbeStep env data host).bind (fun ssl_expiry =>
          (versionStep data
              (if !fedOK.truthy then .str "[OFFLINE]" else .null)).bind
            (fun version => .ok ⟨version, ssl_expiry⟩))) := by
  unfold query_homeserver
  rw [h]
  rfl

theorem versionStep_truthy (data version : Json) (h : version.truthy = true) :
    versionStep data version = .ok version := by
  unfold versionStep
  rw [h]
  rfl

theorem versionStep_null_ok (data v : Json)
    (hv : (do
        let v ← jsonGet data "Version"
        jsonGet v "version" : Except PyExc Json) = .ok v) :
    versionStep data .null = .ok v := by
  unfold versionStep
  rw [hv]
  rfl

theorem versionStep_null_err (data : Json) (ex : PyExc)
    (hv : (do
        let v ← jsonGet data "Version"
        jsonGet v "version" : Except PyExc Json) = .error ex) :
    versionStep data .null = .ok (.str "[ERROR]") := by
  unfold versionStep
  rw [hv]
  simp [Json.truthy, verChain_caught data ex hv]

theorem listLe_total : ∀ as bs : List Char, (listLe as bs || listLe bs as) = true
  | [], [] => rfl
  | [], _ :: _ => rfl
  | _ :: _, [] => rfl
  | a :: as, b :: bs => by
    simp only [listLe]
    rcases lt_trichotomy a b with h | h | h
    · simp [ne_of_lt h, h]
    · subst h
      simpa using listLe_total as bs
    · simp [ne_of_gt h, (ne_of_gt h).symm, h]

theorem listLe_trans : ∀ as bs cs : List Char,
    listLe as bs = true → listLe bs cs = true → listLe as cs = true
  | [], _, _, _, _ => rfl
  | _ :: _, [], _, h, _ => by simp [listLe] at h
  | _ :: _, _ :: _, [], _, h => by simp [listLe] at h
  | a :: as, b :: bs, c :: cs, h1, h2 => by
    simp only [listLe] at h1 h2 ⊢
    by_cases hab : a = b
    · subst hab
      rw [if_pos rfl] at h1
      by_cases hac : a = c
      · subst hac
        rw [if_pos rfl] at h2 ⊢
        exact listLe_trans as bs cs h1 h2
      · rw [if_neg hac] at h2 ⊢
        exact h2
    · rw [if_neg hab] at h1
      by_cases hbc : b = c
      · subst hbc
        rw [if_neg hab]
        exact h1
      · rw [if_neg hbc] at h2
        have hac : a < c :=
          lt_trans (of_decide_eq_true h1) (of_decide_eq_true h2)
        rw [if_neg (ne_of_lt hac)]
        exact decide_eq_true hac

instance : IsTotal String pyStrLe :=
  ⟨fun a b => by
    have h := listLe_total a.data b.data
    rcases Bool.or_eq_true_iff.mp h with h' | h'
    · exact Or.inl h'
    · exact Or.inr h'⟩

instance : IsTrans String pyStrLe :=
  ⟨fun a b c h1 h2 => listLe_trans a.data b.data c.data h1 h2⟩

/-- C6: the per-host warning: expiry known and strictly fewer than 30 whole
days away (negative included, rendered as a negative number) gives
`(cert expiry in N days!)`; certificate unavailable gives `(SSL error)`;
otherwise the warning is empty. -/
theorem claim_C6 (expiry now : Int) :
    warningFor none now = "(SSL error)" ∧
    (Int.fdiv (expiry - now) 86400 < 30 →
      warningFor (some expiry) now =
        "(cert expiry in " ++ toString (Int.fdiv (expiry - now) 86400) ++ " days!)") ∧
    (30 ≤ Int.fdiv (expiry - now) 86400 → warningFor (some expiry) now = "") := by
  refine ⟨rfl, fun h => ?_, fun h => ?_⟩
  · simp [warningFor, h]
  · simp [warningFor, not_lt.mpr h]

/-- Witness for C6 at expiry 10 days out, 100 days out, and unavailable. -/
theorem claim_C6_witness :
    Int.fdiv ((864000 : Int) - 0) 86400 < 30 ∧
    warningFor (some 864000) 0 = "(cert expiry in 10 days!)" ∧
    (30 : Int) ≤ Int.fdiv ((8640000 : Int) - 0) 86400 ∧
    warningFor (some 8640000) 0 = "" ∧
    warningFor none 0 = "(SSL error)" := by
  refine ⟨by decide, ?_, by decide, ?_, (claim_C6 0 0).1⟩
  · rw [(claim_C6 864000 0).2.1 (by decide)]; rfl
  · exact (claim_C6 8640000 0).2.2 (by decide)

/-- C4: a federation-tester request timeout does not yield `'[TIMEOUT]'`:
the handler assigns `version = '[TIMEOUT]'` but `req` was never bound, so
`json.loads(req.text)` raises `UnboundLocalError` out of the probe. -/
theorem claim_C4 (env : HostEnv) (host : String) (h : env.http = .timeout) :
    query_homeserver env host = .error .unboundLocalError := by
  simp [query_homeserver, h]

/-- Witness for C4: a concrete timed-out environment. -/
theorem claim_C4_witness :
    (HostEnv.mk .timeout (fun _ _ _ => .ok 0)).http = .timeout ∧
    query_homeserver (HostEnv.mk .timeout (fun _ _ _ => .ok 0)) "a.org" =
      .error .unboundLocalError :=
  ⟨rfl, claim_C4 _ "a.org" rfl⟩

/-- C2 counterexample: with an empty `dead_servers` list the member mapping
is not sorted (or deduplicated) at all — the hosts keep dict insertion
order, refuting the unconditional "sorted ascending" claim. -/
theorem claim_C2_counterexample :
    resolveHosts ["b.org", "a.org"] [] = ["b.org", "a.org"] ∧
    resolveHosts ["b.org", "a.org"] [] ≠ ["a.org", "b.org"] :=
  ⟨rfl, by decide⟩

/-- C2 (amended): when `dead_servers` is non-empty the resolver output is
sorted ascending, duplicate-free, and contains exactly the member hosts
not on the deny-list; when `dead_servers` is empty the member hosts are
used unchanged, in insertion order. -/
theorem claim_C2 (memberHosts dead_servers : List String) :
    (dead_servers ≠ [] →
      (resolveHosts memberHosts dead_servers).Sorted pyStrLe ∧
      (resolveHosts memberHosts dead_servers).Nodup ∧
      (∀ h, h ∈ resolveHosts memberHosts dead_servers ↔
        h ∈ memberHosts ∧ h ∉ dead_servers)) ∧
    resolveHosts memberHosts [] = memberHosts := by
  constructor
  · intro hne
    have hif : dead_servers.isEmpty = false := by
      simpa using hne
    unfold resolveHosts
    rw [hif]
    simp only [Bool.false_eq_true, if_false]
    refine ⟨List.sorted_insertionSort pyStrLe _, ?_, ?_⟩
    · exact (List.perm_insertionSort pyStrLe _).nodup_iff.mpr
        (List.nodup_dedup _)
    · intro h
      simp [List.mem_insertionSort, List.mem_filter]
  · simp [resolveHosts]

/-- Witness for C2 on the spec's example members and deny-list. -/
theorem claim_C2_witness :
    (["b.org"] : List String) ≠ [] ∧
    (∀ h, h ∈ resolveHosts ["a.org", "b.org", "c.org"] ["b.org"] ↔
      h ∈ ["a.org", "b.org", "c.org"] ∧ h ∉ ["b.org"]) ∧
    resolveHosts ["a.org", "b.org", "c.org"] ["b.org"] = ["a.org", "c.org"] :=
  ⟨by decide,
   ((claim_C2 ["a.org", "b.org", "c.org"] ["b.org"]).1 (by decide)).2.2,
   by decide⟩

theorem get_ssl_expiry_eq (connect : ConnectFn)
    (addr host hostname port : String) (n : Int)
    (hsplit : pySplitColon addr = [hostname, port])
    (hint : pyInt? port = some n) :
    get_ssl_expiry connect addr host = connectExc (connect hostname n host) := by
  unfold get_ssl_expiry
  rw [hsplit]
  dsimp only
  rw [hint]

theorem get_ssl_expiry_badport (connect : ConnectFn)
    (addr host hostname port : String)
    (hsplit : pySplitColon addr = [hostname, port])
    (hint : pyInt? port = none) :
    get_ssl_expiry connect addr host = .error .valueError := by
  unfold get_ssl_expiry
  rw [hsplit]
  dsimp only
  rw [hint]

/-- C3 counterexample: a body that fails `json.loads`, or one without a
`FederationOK` field, raises out of `query_homeserver` instead of
becoming `'[ERROR]'` — `json.loads(req.text)` and `data['FederationOK']`
sit outside every try block. -/
theorem claim_C3_counterexample :
    query_homeserver envMalformed "x.org" = .error .jsonDecodeError ∧
    query_homeserver (HostEnv.mk (.body (.obj [])) connOk) "x.org" =
      .error (.keyError "FederationOK") :=
  ⟨rfl, rfl⟩

/-- C3 (amended): once the body parses and `FederationOK` is present (and
the certificate step does not itself raise an uncaught exception): a falsy
`FederationOK` gives `'[OFFLINE]'` regardless of other fields; a truthy
one with `Version.version` readable gives that value; a truthy one whose
`Version`/`version` access raises gives `'[ERROR]'` (`KeyError`/`TypeError`
caught locally). A malformed body or missing `FederationOK` field,
however, raises out of the probe. -/
theorem claim_C3 (env : HostEnv) (data : Json) (host : String)
    (expiry : Option Int) (fedOK : Json)
    (hhttp : env.http = .body data)
    (hfed : jsonGet data "FederationOK" = .ok fedOK)
    (hcert : certProbeStep env data host = .ok expiry) :
    (fedOK.truthy = false →
      query_homeserver env host = .ok ⟨.str "[OFFLINE]", expiry⟩) ∧
    (fedOK.truthy = true →
      (∀ v, (do
          let v ← jsonGet data "Version"
          jsonGet v "version" : Except PyExc Json) = .ok v →
        query_homeserver env host = .ok ⟨v, expiry⟩) ∧
      (∀ ex, (do
          let v ← jsonGet data "Version"
          jsonGet v "version" : Except PyExc Json) = .error ex →
        query_homeserver env host = .ok ⟨.str "[ERROR]", expiry⟩)) := by
  rw [query_homeserver_body env data host hhttp, hfed, except_bind_ok, hcert,
    except_bind_ok]
  refine ⟨fun hf => ?_, fun ht => ⟨fun v hv => ?_, fun ex hex => ?_⟩⟩
  · rw [hf]
    rw [show (if !false then Json.str "[OFFLINE]" else Json.null) =
      Json.str "[OFFLINE]" from rfl]
    rw [versionStep_truthy data (.str "[OFFLINE]") rfl, except_bind_ok]
  · rw [ht]
    rw [show (if !true then Json.str "[OFFLINE]" else Json.null) = Json.null
      from rfl]
    rw [versionStep_null_ok data v hv, except_bind_ok]
  · rw [ht]
    rw [show (if !true then Json.str "[OFFLINE]" else Json.null) = Json.null
      from rfl]
    rw [versionStep_null_err data ex hex, except_bind_ok]

/-- Witness for C3 on the healthy fixture. -/
theorem claim_C3_witness :
    (envOk "a.org").http = .body goodData ∧
    jsonGet goodData "FederationOK" = .ok (.bool true) ∧
    certProbeStep (envOk "a.org") goodData "a.org" = .ok (some 3456000) ∧
    query_homeserver (envOk "a.org") "a.org" =
      .ok ⟨.str "1.90.0", some 3456000⟩ :=
  ⟨rfl, rfl, rfl,
    ((claim_C3 (envOk "a.org") goodData "a.org" (some 3456000) (.bool true)
        rfl rfl rfl).2 rfl).1 (.str "1.90.0") rfl⟩

/-- C5 counterexample: a refused TLS connection is not converted to
`Unavailable` — `ConnectionRefusedError` is outside the caught
`(SSLCertVerificationError, SSLError, IndexError)` and aborts the probe. -/
theorem claim_C5_counterexample :
    query_homeserver envRefused "a.org" = .error .connectionRefused :=
  rfl

/-- C5 (amended): during the certificate step, TLS verification failures,
generic SSL failures, and an empty `ConnectionReports` map all collapse to
`ssl_expiry = None` without raising; but a refused or timed-out
connection escapes the except clause and, lifted through
`query_homeserver`, aborts the whole probe of that host. -/
theorem claim_C5 (env : HostEnv) (data : Json) (host : String) :
    (connReportAddr data = .error .indexError →
      certProbeStep env data host = .ok none) ∧
    (∀ addr hostname port n,
      connReportAddr data = .ok addr →
      pySplitColon addr = [hostname, port] →
      pyInt? port = some n →
      (env.connect hostname n host = .sslCertVerify →
        certProbeStep env data host = .ok none) ∧
      (env.connect hostname n host = .sslErr →
        certProbeStep env data host = .ok none) ∧
      (env.connect hostname n host = .refused →
        certProbeStep env data host = .error .connectionRefused) ∧
      (env.connect hostname n host = .timedOut →
        certProbeStep env data host = .error .socketTimeout)) ∧
    (∀ fedOK ex, env.http = .body data →
      jsonGet data "FederationOK" = .ok fedOK →
      certProbeStep env data host = .error ex →
      query_homeserver env host = .error ex) := by
  refine ⟨fun hidx => ?_, fun addr hostname port n haddr hsplit hint => ?_,
    fun fedOK ex hhttp hfed hcert => ?_⟩
  · unfold certProbeStep
    rw [show (do
        let addr ← connReportAddr data
        get_ssl_expiry env.connect addr host : Except PyExc Int) =
          (connReportAddr data).bind
            (fun addr => get_ssl_expiry env.connect addr host) from rfl,
      hidx, except_bind_error]
    rfl
  · have hstep : ∀ out, env.connect hostname n host = out →
        certProbeStep env data host =
          match connectExc out with
          | .ok expiry => .ok (some expiry)
          | .error e => if sslCaught e then .ok none else .error e := by
      intro out hout
      unfold certProbeStep
      rw [show (do
          let addr ← connReportAddr data
          get_ssl_expiry env.connect addr host : Except PyExc Int) =
            (connReportAddr data).bind
              (fun addr => get_ssl_expiry env.connect addr host) from rfl,
        haddr, except_bind_ok,
        get_ssl_expiry_eq env.connect addr host hostname port n hsplit hint,
        hout]
    exact ⟨fun hout => by rw [hstep _ hout]; rfl,
      fun hout => by rw [hstep _ hout]; rfl,
      fun hout => by rw [hstep _ hout]; rfl,
      fun hout => by rw [hstep _ hout]; rfl⟩
  · rw [query_homeserver_body env data host hhttp, hfed, except_bind_ok, hcert,
      except_bind_error]

/-- Witness for C5: the refused-connection fixture, via the theorem. -/
theorem claim_C5_witness :
    connReportAddr goodData = .ok "1.2.3.4:8448" ∧
    pySplitColon "1.2.3.4:8448" = ["1.2.3.4", "8448"] ∧
    pyInt? "8448" = some 8448 ∧
    envRefused.connect "1.2.3.4" 8448 "a.org" = .refused ∧
    certProbeStep envRefused goodData "a.org" = .error .connectionRefused :=
  ⟨rfl, rfl, rfl, rfl,
    ((claim_C5 envRefused goodData "a.org").2.1 "1.2.3.4:8448" "1.2.3.4"
        "8448" 8448 rfl rfl rfl).2.2.1 rfl⟩

/-- C10: `get_ssl_expiry` accepts exactly one-colon `hostname:port`
addresses with an integer port, connecting with that hostname and port;
any other shape raises `ValueError`, which is not among the exceptions the
caller's except clause converts to `Unavailable`. -/
theorem claim_C10 (connect : ConnectFn) (addr host : String) :
    (∀ hostname port n,
      pySplitColon addr = [hostname, port] →
      pyInt? port = some n →
      get_ssl_expiry connect addr host = connectExc (connect hostname n host)) ∧
    ((∀ hostname port, pySplitColon addr = [hostname, port] →
        pyInt? port = none) →
      get_ssl_expiry connect addr host = .error .valueError) ∧
    sslCaught .valueError = false := by
  refine ⟨fun hostname port n hsplit hint => ?_, fun hbad => ?_, rfl⟩
  · exact get_ssl_expiry_eq connect addr host hostname port n hsplit hint
  · rcases hs : pySplitColon addr with _ | ⟨a, _ | ⟨b, _ | ⟨c, rest⟩⟩⟩
    · unfold get_ssl_expiry; rw [hs]
    · unfold get_ssl_expiry; rw [hs]
    · exact get_ssl_expiry_badport connect addr host a b hs (hbad a b hs)
    · unfold get_ssl_expiry; rw [hs]

/-- Witness for C10: a well-formed and a malformed address. -/
theorem claim_C10_witness :
    pySplitColon "1.2.3.4:8448" = ["1.2.3.4", "8448"] ∧
    pyInt? "8448" = some 8448 ∧
    get_ssl_expiry connOk "1.2.3.4:8448" "a.org" = .ok 3456000 ∧
    get_ssl_expiry connOk "a.org:x" "a.org" = .error .valueError ∧
    sslCaught .valueError = false := by
  refine ⟨rfl, rfl, ?_, ?_, rfl⟩
  · exact ((claim_C10 connOk "1.2.3.4:8448" "a.org").1 "1.2.3.4" "8448" 8448
      rfl rfl).trans rfl
  · refine (claim_C10 connOk "a.org:x" "a.org").2.1 ?_
    intro hostname port h
    rw [show pySplitColon "a.org:x" = ["a.org", "x"] from rfl] at h
    injection h with h1 h2
    injection h2 with h3 _
    subst h3
    rfl

theorem probeLoop_cons (env : String → HostEnv) (now : Int) (host : String)
    (rest : List String) :
    probeLoop env now (host :: rest) =
      (query_homeserver (env host) host).bind (fun data =>
        (probeLoop env now rest).bind (fun tail =>
          .ok ((host, data.version.pyStr ++ " " ++
            warningFor data.ssl_expiry now) :: tail))) := rfl

theorem probeLoop_ok_of (env : String → HostEnv) (now : Int) :
    ∀ hosts : List String,
      (∀ h ∈ hosts, ∃ d, query_homeserver (env h) h = .ok d) →
      ∃ vs, probeLoop env now hosts = .ok vs ∧ vs.map Prod.fst = hosts := by
  intro hosts
  induction hosts with
  | nil => exact fun _ => ⟨[], rfl, rfl⟩
  | cons h rest ih =>
    intro hall
    obtain ⟨d, hd⟩ := hall h (List.mem_cons_self h rest)
    obtain ⟨vs, hvs, hfst⟩ := ih (fun x hx => hall x (List.mem_cons_of_mem h hx))
    refine ⟨(h, d.version.pyStr ++ " " ++ warningFor d.ssl_expiry now) :: vs,
      ?_, ?_⟩
    · rw [probeLoop_cons, hd, except_bind_ok, hvs, except_bind_ok]
    · simp [hfst]

theorem probeLoop_fst (env : String → HostEnv) (now : Int) :
    ∀ (hosts : List String) (vs : List (String × String)),
      probeLoop env now hosts = .ok vs → vs.map Prod.fst = hosts := by
  intro hosts
  induction hosts with
  | nil =>
    intro vs hvs
    injection hvs with hvs
    subst hvs
    rfl
  | cons h rest ih =>
    intro vs hvs
    rw [probeLoop_cons] at hvs
    rcases hq : query_homeserver (env h) h with e | d
    · rw [hq, except_bind_error] at hvs; exact Except.noConfusion hvs
    · rw [hq, except_bind_ok] at hvs
      rcases hr : probeLoop env now rest with e | tail
      · rw [hr, except_bind_error] at hvs; exact Except.noConfusion hvs
      · rw [hr, except_bind_ok] at hvs
        injection hvs with hvs
        subst hvs
        simp [ih tail hr]

theorem probeLoop_mem (env : String → HostEnv) (now : Int) :
    ∀ (hosts : List String) (vs : List (String × String)),
      probeLoop env now hosts = .ok vs →
      ∀ hv ∈ vs, ∃ d, query_homeserver (env hv.1) hv.1 = .ok d ∧
        hv.2 = d.version.pyStr ++ " " ++ warningFor d.ssl_expiry now := by
  intro hosts
  induction hosts with
  | nil =>
    intro vs hvs hv hmem
    injection hvs with hvs
    subst hvs
    exact absurd hmem (List.not_mem_nil hv)
  | cons h rest ih =>
    intro vs hvs hv hmem
    rw [probeLoop_cons] at hvs
    rcases hq : query_homeserver (env h) h with e | d
    · rw [hq, except_bind_error] at hvs; exact Except.noConfusion hvs
    · rw [hq, except_bind_ok] at hvs
      rcases hr : probeLoop env now rest with e | tail
      · rw [hr, except_bind_error] at hvs; exact Except.noConfusion hvs
      · rw [hr, except_bind_ok] at hvs
        injection hvs with hvs
        subst hvs
        rcases List.mem_cons.mp hmem with hEq | hm
        · subst hEq
          exact ⟨d, hq, rfl⟩
        · exact ih tail hr hv hm

theorem probeLoop_congr (env env' : String → HostEnv) (now : Int) :
    ∀ hosts : List String, (∀ h ∈ hosts, env h = env' h) →
      probeLoop env now hosts = probeLoop env' now hosts := by
  intro hosts
  induction hosts with
  | nil => exact fun _ => rfl
  | cons h rest ih =>
    intro hall
    rw [probeLoop_cons, probeLoop_cons,
      hall h (List.mem_cons_self h rest),
      ih (fun x hx => hall x (List.mem_cons_of_mem h hx))]

/-- C1 counterexample: one malformed federation-tester body aborts the
whole `!shame` run — `query_homeserver` is called with no surrounding
try/except, so `b.org` is never probed and no report is produced. -/
theorem claim_C1_counterexample :
    shame_pipeline tmpl0 [] none ["a.org", "b.org"] envFirstBad 0 =
      .error .jsonDecodeError :=
  rfl

/-- C1 (amended): only SSL/IndexError during the certificate step and
TypeError/KeyError during version extraction are converted to placeholder
values; when every host's probe avoids the uncaught failure modes (each
`query_homeserver` call returns), the run produces a report listing every
requested host, while any uncaught per-host exception aborts the run. -/
theorem claim_C1 (tmpl : String → String) (dead_servers : List String)
    (candidate : Option String) (memberHosts : List String)
    (env : String → HostEnv) (now : Int)
    (hok : ∀ h ∈ memberServers candidate memberHosts dead_servers,
      ∃ d, query_homeserver (env h) h = .ok d) :
    ∃ vs, vs.map Prod.fst = memberServers candidate memberHosts dead_servers ∧
      shame_pipeline tmpl dead_servers candidate memberHosts env now =
        .ok (renderReport tmpl vs) := by
  obtain ⟨vs, hvs, hfst⟩ := probeLoop_ok_of env now _ hok
  refine ⟨vs, hfst, ?_⟩
  unfold shame_pipeline
  rw [hvs, except_bindM_ok]

/-- Witness for C1: two healthy hosts, run succeeds and lists both. -/
theorem claim_C1_witness :
    (∀ h ∈ memberServers none ["b.org", "a.org"] [],
      ∃ d, query_homeserver (envOk h) h = .ok d) ∧
    ∃ vs, vs.map Prod.fst = memberServers none ["b.org", "a.org"] [] ∧
      shame_pipeline tmpl0 [] none ["b.org", "a.org"] envOk 0 =
        .ok (renderReport tmpl0 vs) :=
  ⟨fun _ _ => ⟨⟨.str "1.90.0", some 3456000⟩, rfl⟩,
   claim_C1 tmpl0 [] none ["b.org", "a.org"] envOk 0
     (fun _ _ => ⟨⟨.str "1.90.0", some 3456000⟩, rfl⟩)⟩

/-- C7: whenever the run completes, the report is the heading plus exactly
one bullet per probed host, in the probing order, each hyperlinking the
federation-tester URL for its own host; with a non-empty explicit
candidate the probed list is exactly `[candidate]`. -/
theorem claim_C7 (tmpl : String → String) (dead_servers : List String)
    (candidate : Option String) (memberHosts : List String)
    (env : String → HostEnv) (now : Int) (s : String)
    (h : shame_pipeline tmpl dead_servers candidate memberHosts env now =
      .ok s) :
    (∃ vs : List (String × String),
      vs.map Prod.fst = memberServers candidate memberHosts dead_servers ∧
      s = "#### Homeserver versions\n" ++
        String.intercalate "\n" (vs.map (fun hv =>
          "* " ++ hv.1 ++ ": [" ++ hv.2 ++ "](" ++ tmpl hv.1 ++ ")"))) ∧
    (∀ c, candidate = some c → c.isEmpty = false →
      memberServers candidate memberHosts dead_servers = [c]) := by
  constructor
  · unfold shame_pipeline at h
    rcases hp : probeLoop env now (memberServers candidate memberHosts
        dead_servers) with e | vs
    · rw [hp, except_bindM_error] at h; exact Except.noConfusion h
    · rw [hp, except_bindM_ok] at h
      injection h with h
      refine ⟨vs, probeLoop_fst env now _ vs hp, ?_⟩
      rw [← h]
      rfl
  · intro c hc hce
    subst hc
    simp only [memberServers]
    rw [hce]
    rfl

/-- Witness for C7: a one-host run and its rendered report. -/
theorem claim_C7_witness :
    shame_pipeline tmpl0 [] none ["a.org"] envOk 0 =
      .ok ("#### Homeserver versions\n* a.org: [1.90.0 ]" ++
        "(https://fed.example/api?server=a.org)") ∧
    ∃ vs : List (String × String),
      vs.map Prod.fst = memberServers none ["a.org"] [] ∧
      ("#### Homeserver versions\n* a.org: [1.90.0 ]" ++
        "(https://fed.example/api?server=a.org)") =
        "#### Homeserver versions\n" ++
          String.intercalate "\n" (vs.map (fun hv =>
            "* " ++ hv.1 ++ ": [" ++ hv.2 ++ "](" ++ tmpl0 hv.1 ++ ")")) :=
  ⟨rfl, (claim_C7 tmpl0 [] none ["a.org"] envOk 0 _ rfl).1⟩

/-- C8 counterexample: identical probe responses at two clock readings give
different reports — the warning depends on `datetime.now()`, which is not
part of the probe responses, so two runs need not be byte-identical. -/
theorem claim_C8_counterexample :
    shame_pipeline tmpl0 [] none ["a.org"] envOk 0 =
      .ok ("#### Homeserver versions\n* a.org: [1.90.0 ]" ++
        "(https://fed.example/api?server=a.org)") ∧
    shame_pipeline tmpl0 [] none ["a.org"] envOk 950400 =
      .ok ("#### Homeserver versions\n* a.org: [1.90.0 (cert expiry in " ++
        "29 days!)](https://fed.example/api?server=a.org)") ∧
    ("#### Homeserver versions\n* a.org: [1.90.0 ]" ++
        "(https://fed.example/api?server=a.org)" : String) ≠
      ("#### Homeserver versions\n* a.org: [1.90.0 (cert expiry in " ++
        "29 days!)](https://fed.example/api?server=a.org)") :=
  ⟨rfl, rfl, by decide⟩

/-- C8 (amended): the pipeline is a pure function of the probe responses
and the clock reading — two runs over the same hosts whose probe
environments agree on every probed host, at the same clock reading,
render byte-identical reports. -/
theorem claim_C8 (tmpl : String → String) (dead_servers : List String)
    (candidate : Option String) (memberHosts : List String)
    (env env' : String → HostEnv) (now : Int)
    (h : ∀ host ∈ memberServers candidate memberHosts dead_servers,
      env host = env' host) :
    shame_pipeline tmpl dead_servers candidate memberHosts env now =
      shame_pipeline tmpl dead_servers candidate memberHosts env' now := by
  unfold shame_pipeline
  rw [probeLoop_congr env env' now _ h]

/-- Witness for C8: two independently built but pointwise-equal
environments. -/
theorem claim_C8_witness :
    (∀ host ∈ memberServers none ["a.org"] [], envOk host = envOkB host) ∧
    shame_pipeline tmpl0 [] none ["a.org"] envOk 0 =
      shame_pipeline tmpl0 [] none ["a.org"] envOkB 0 :=
  ⟨fun _ _ => rfl,
   claim_C8 tmpl0 [] none ["a.org"] envOk envOkB 0 (fun _ _ => rfl)⟩

/-- C9: every rendered link text is the version text, one space, then the
warning — so with an empty warning the text keeps a trailing space. -/
theorem claim_C9 (env : String → HostEnv) (now : Int)
    (hosts : List String) (vs : List (String × String))
    (h : probeLoop env now hosts = .ok vs) :
    ∀ hv ∈ vs, ∃ d, query_homeserver (env hv.1) hv.1 = .ok d ∧
      hv.2 = d.version.pyStr ++ " " ++ warningFor d.ssl_expiry now ∧
      (warningFor d.ssl_expiry now = "" → hv.2 = d.version.pyStr ++ " ") := by
  intro hv hmem
  obtain ⟨d, hd, htext⟩ := probeLoop_mem env now hosts vs h hv hmem
  refine ⟨d, hd, htext, fun hw => ?_⟩
  rw [htext, hw, String.append_empty]

/-- Witness for C9: the healthy one-host loop, whose only link text is
`"1.90.0 "` with the trailing space. -/
theorem claim_C9_witness :
    probeLoop envOk 0 ["a.org"] = .ok [("a.org", "1.90.0 ")] ∧
    ∃ d, query_homeserver (envOk "a.org") "a.org" = .ok d ∧
      ("a.org", "1.90.0 ").2 =
        d.version.pyStr ++ " " ++ warningFor d.ssl_expiry 0 ∧
      (warningFor d.ssl_expiry 0 = "" →
        ("a.org", "1.90.0 ").2 = d.version.pyStr ++ " ") :=
  ⟨rfl,
   claim_C9 envOk 0 ["a.org"] [("a.org", "1.90.0 ")] rfl
     ("a.org", "1.90.0 ") (List.mem_singleton.mpr rfl)⟩

end Shameotron
